import Mathlib

/-!
Shallow embedding of the auth front-end core of `ToAtlas/AtlasFronted`:

* the Pinia auth store (`src/unnamed/part_003`, second revision of
  `src/stores/auth.ts`): token session management (`login`, `logout`,
  `refreshAccessToken`) and the verification-flow tracker
  (`setVerificationState`, `setPasswordResetToken`, `clearVerificationState`,
  `cleanupAfterVerification`, `resendVerificationCode`, `unifiedVerify`,
  `hasActiveVerification`, `isResendCoolingDown`, `resendCooldownSeconds`);
* the axios response interceptor (`src/src/services/api.ts`): the 401
  single-flight refresh coordination (`isRefreshing` / `failedQueue`).

Network calls are modelled by passing the server's answer (or a transport
error) as an `Except String _` argument; JavaScript `Date.now()` becomes an
explicit `now : Int` argument; `sessionStorage` persistence is a side effect
with no bearing on the in-memory state and is not modelled.  JavaScript
truthiness on the fields involved (`!!s` false for the empty string, `!!n`
false for the number 0) is modelled explicitly where the source relies on it.
-/

/-- JavaScript `String.prototype.includes`, on the character lists of the
two strings: `sub` occurs contiguously inside `s`. -/
def listIsInfix (sub s : List Char) : Bool :=
  (s.tails).any (fun t => sub.isPrefixOf t)

/-- JavaScript `s.includes(sub)`. -/
def strIncludes (s sub : String) : Bool :=
  listIsInfix sub.toList s.toList

/-- JavaScript truthiness of a nullable string (`null` and `""` are falsy). -/
def truthyStr : Option String → Bool
  | none => false
  | some t => t != ""

/-- JavaScript truthiness of a nullable number (`null` and `0` are falsy). -/
def truthyInt : Option Int → Bool
  | none => false
  | some n => n != 0

/-- The `type` field of a `VerificationState`: `'signup' | 'forgot-password'`
(the `null` case is the surrounding `Option`). -/
inductive FlowType where
  | signup
  | forgotPassword
deriving DecidableEq, Repr

/-- The `VerificationState` interface of `src/stores/auth.ts`. -/
structure VerificationState where
  type : Option FlowType
  email : Option String
  verificationToken : Option String
  passwordResetToken : Option String
  timestamp : Option Int
deriving DecidableEq, Repr

/-- `createEmptyVerificationState()`. -/
def createEmptyVerificationState : VerificationState :=
  { type := none, email := none, verificationToken := none,
    passwordResetToken := none, timestamp := none }

/-- The reactive state of the auth store that the claims touch:
`accessToken`, `loading`, `error`, `verificationState` and
`resendCooldownEndTimestamp`. -/
structure AuthStore where
  accessToken : Option String
  loading : Bool
  error : Option String
  verificationState : VerificationState
  resendCooldownEndTimestamp : Option Int
deriving DecidableEq, Repr

/-- Getter `isAuthenticated = computed(() => !!accessToken.value)`. -/
def isAuthenticated (s : AuthStore) : Bool :=
  truthyStr s.accessToken

/-- Action `login(data)`: stores the access token in memory. -/
def login (accessToken : String) (s : AuthStore) : AuthStore :=
  { s with accessToken := some accessToken }

/-- Action `logout(clearAuthConfigCache = true)`.  The POST to
`/v1/auth/logout` is modelled by its outcome `netResult`; the `try/catch`
only logs a failure, and the `finally` block clears the in-memory token
unconditionally, so `logout` is a total function of the outcome (it never
propagates an error).  Clearing the config cache lives in an external store
and is not modelled. -/
def logout (netResult : Except String Unit) (clearAuthConfigCache : Bool)
    (s : AuthStore) : AuthStore :=
  { s with accessToken := none }

/-- The `data` field of a successful `/v1/auth/refresh` envelope. -/
structure RefreshData where
  accessToken : Option String
deriving DecidableEq, Repr

/-- The `{code, data}` envelope answered by `/v1/auth/refresh`. -/
structure RefreshResp where
  code : Int
  data : Option RefreshData
deriving DecidableEq, Repr

/-- Decides whether a refresh answer takes the success path of
`refreshAccessToken`: the request did not throw, `result.code === 200`, and
`result.data.accessToken` is truthy. -/
def refreshRespSucceeds : Except String RefreshResp → Bool
  | .error _ => false
  | .ok result =>
    match result.data with
    | none => false
    | some d => decide (result.code = 200) && truthyStr d.accessToken

/-- Action `refreshAccessToken()`.  `resp` is the outcome of
`api.post('/v1/auth/refresh')`; a transport error is `.error`.  Reading
`result.data.accessToken` when `data` is `null` throws, landing in the same
`catch` branch as a transport error; both failure shapes `await logout()`
(whose own network outcome is `logoutNet`) and return `false`. -/
def refreshAccessToken (resp : Except String RefreshResp)
    (logoutNet : Except String Unit) (s : AuthStore) : Bool × AuthStore :=
  let s1 : AuthStore := { s with loading := true, error := none }
  match resp with
  | .error _ =>
    (false, { logout logoutNet true s1 with loading := false })
  | .ok result =>
    match result.data with
    | none =>
      (false, { logout logoutNet true s1 with loading := false })
    | some d =>
      match d.accessToken with
      | some tok =>
        if result.code = 200 ∧ tok ≠ "" then
          (true, { login tok s1 with loading := false })
        else
          (false, { logout logoutNet true s1 with loading := false })
      | none =>
        (false, { logout logoutNet true s1 with loading := false })

/-- `VERIFICATION_TIMEOUT = 15 * 60 * 1000` (milliseconds). -/
def VERIFICATION_TIMEOUT : Int := 15 * 60 * 1000

/-- Argument record of `setVerificationState`. -/
structure SetVerificationParams where
  type : FlowType
  email : String
  verificationToken : String
deriving DecidableEq, Repr

/-- Action `setVerificationState(params)`: overwrites the whole verification
state, clearing any prior `passwordResetToken` and resetting the timestamp
to `Date.now()` (the `now` argument). -/
def setVerificationState (params : SetVerificationParams) (now : Int)
    (s : AuthStore) : AuthStore :=
  { s with verificationState :=
      { type := some params.type, email := some params.email,
        verificationToken := some params.verificationToken,
        passwordResetToken := none, timestamp := some now } }

/-- Action `setPasswordResetToken(token)`: sets only that field, keeping the
rest of the verification state. -/
def setPasswordResetToken (token : String) (s : AuthStore) : AuthStore :=
  { s with verificationState :=
      { s.verificationState with passwordResetToken := some token } }

/-- Action `clearVerificationState()`: resets the verification state to the
empty state and nulls `resendCooldownEndTimestamp`. -/
def clearVerificationState (s : AuthStore) : AuthStore :=
  { s with
    verificationState := createEmptyVerificationState,
    resendCooldownEndTimestamp := none }

/-- Action `cleanupAfterVerification(keepPasswordResetToken = false)`: when
the flag is set and a truthy `passwordResetToken` is held, keeps only
`email` and `passwordResetToken` (type pinned to forgot-password, timestamp
refreshed); otherwise falls back to `clearVerificationState()`. -/
def cleanupAfterVerification (keepPasswordResetToken : Bool) (now : Int)
    (s : AuthStore) : AuthStore :=
  if keepPasswordResetToken && truthyStr s.verificationState.passwordResetToken then
    { s with verificationState :=
        { type := some FlowType.forgotPassword,
          email := s.verificationState.email,
          verificationToken := none,
          passwordResetToken := s.verificationState.passwordResetToken,
          timestamp := some now } }
  else
    clearVerificationState s

/-- Getter `isResendCoolingDown`: `!!(resendCooldownEndTimestamp.value &&
now.value < resendCooldownEndTimestamp.value)`. -/
def isResendCoolingDown (now : Int) (s : AuthStore) : Bool :=
  match s.resendCooldownEndTimestamp with
  | none => false
  | some e => e != 0 && decide (now < e)

/-- Getter `resendCooldownSeconds`: 0 outside a cooldown, otherwise
`Math.floor((end - now) / 1000)`. -/
def resendCooldownSeconds (now : Int) (s : AuthStore) : Int :=
  if isResendCoolingDown now s then
    match s.resendCooldownEndTimestamp with
    | some e => Int.fdiv (e - now) 1000
    | none => 0
  else 0

/-- Getter `hasActiveVerification`: false when `type` or `timestamp` is
falsy; when `now - timestamp > VERIFICATION_TIMEOUT` the expired state is
auto-cleared (via `clearVerificationState`) and false is reported; otherwise
true.  Returns the possibly-updated store alongside the answer, since the
getter mutates on the expiry path. -/
def hasActiveVerification (now : Int) (s : AuthStore) : Bool × AuthStore :=
  match s.verificationState.type, s.verificationState.timestamp with
  | some _, some ts =>
    if ts = 0 then (false, s)
    else if now - ts > VERIFICATION_TIMEOUT then
      (false, clearVerificationState s)
    else (true, s)
  | _, _ => (false, s)

/-- The `data` field of a successful `/v1/auth/resend-verification-code`
envelope. -/
structure ResendData where
  verificationToken : String
deriving DecidableEq, Repr

/-- The `{code, message, data}` envelope answered by
`/v1/auth/resend-verification-code`. -/
structure ResendResp where
  code : Int
  message : String
  data : Option ResendData
deriving DecidableEq, Repr

/-- Result of a `resendVerificationCode` call: the returned boolean, the
store afterwards, and whether a network request to
`/v1/auth/resend-verification-code` was issued. -/
structure ResendOutcome where
  success : Bool
  store : AuthStore
  requestSent : Bool
deriving DecidableEq, Repr

/-- Error message of the expired-session precondition of
`resendVerificationCode`. -/
def resendExpiredMsg : String := "验证会话已失效，请返回重新开始。"

/-- Error message of the cooldown precondition (also the message of the
error thrown on a matched 429 answer). -/
def resendCooldownMsg : String := "操作过于频繁，请稍后再试。"

/-- Error message of the incomplete-state precondition. -/
def resendIncompleteMsg : String := "验证状态不完整，无法重发。"

/-- Fallback error message of `resendVerificationCode`. -/
def resendFallbackMsg : String := "发送失败，请稍后重试"

/-- Action `resendVerificationCode()`.  Local preconditions first (active
flow — evaluating `hasActiveVerification` may itself auto-clear an expired
state — then cooldown, then truthy `email`/`type`/`verificationToken`); only
then is the network request issued, its answer given by `resp`.  On
`code === 200` the state is re-set with the fresh token and a 60-second
cooldown starts; on `code === 429` with a message containing "频繁" the
cooldown also starts and the thrown error is caught; any other answer or a
transport error just lands in the `catch` branch.  A 200 answer whose `data`
is absent throws a TypeError while reading `data.verificationToken`. -/
def resendVerificationCode (now : Int) (resp : Except String ResendResp)
    (s : AuthStore) : ResendOutcome :=
  let check := hasActiveVerification now s
  let s0 := check.2
  if check.1 = false then
    { success := false, store := { s0 with error := some resendExpiredMsg },
      requestSent := false }
  else if isResendCoolingDown now s0 then
    { success := false, store := { s0 with error := some resendCooldownMsg },
      requestSent := false }
  else
    match s0.verificationState.email, s0.verificationState.type,
        s0.verificationState.verificationToken with
    | some email, some ftype, some vtok =>
      if email = "" ∨ vtok = "" then
        { success := false,
          store := { s0 with error := some resendIncompleteMsg },
          requestSent := false }
      else
        let s1 := { s0 with loading := true, error := none }
        match resp with
        | .ok result =>
          if result.code = 200 then
            match result.data with
            | some d =>
              let s2 := setVerificationState
                ⟨ftype, email, d.verificationToken⟩ now s1
              { success := true,
                store := { s2 with
                  resendCooldownEndTimestamp := some (now + 60 * 1000),
                  loading := false },
                requestSent := true }
            | none =>
              { success := false,
                store := { s1 with
                  error := some "Cannot read properties of undefined (reading 'verificationToken')",
                  loading := false },
                requestSent := true }
          else if result.code = 429 ∧ strIncludes result.message "频繁" then
            { success := false,
              store := { s1 with
                resendCooldownEndTimestamp := some (now + 60 * 1000),
                error := some resendCooldownMsg,
                loading := false },
              requestSent := true }
          else
            { success := false,
              store := { s1 with
                error := some (if result.message = "" then resendFallbackMsg
                  else result.message),
                loading := false },
              requestSent := true }
        | .error msg =>
          { success := false,
            store := { s1 with
              error := some (if msg = "" then resendFallbackMsg else msg),
              loading := false },
            requestSent := true }
    | _, _, _ =>
      { success := false,
        store := { s0 with error := some resendIncompleteMsg },
        requestSent := false }

/-- How the axios instance of `api.ts` delivers a server answer for the
resend endpoint to the store code.  The instance sets no `validateStatus`,
so axios resolves only HTTP 2xx responses with their body and rejects every
other status; the response interceptor's 401 branch does not apply to this
endpoint's errors, so the rejection reaches the store's `catch`, where
`e?.response?.data?.message` is the body's `message`. -/
def axiosDeliver (httpStatus : Int) (body : ResendResp) :
    Except String ResendResp :=
  if 200 ≤ httpStatus ∧ httpStatus < 300 then .ok body
  else .error body.message

/-- The rate-limit answer of `POST /v1/auth/resend-verification-code` in
`mock-server/index.ts` (lines 253-259): HTTP status 429 with body
`{code: 429, message: '请求过于频繁，请1分钟后再试'}` and no `data`. -/
def mockResendRateLimited : ResendResp :=
  { code := 429, message := "请求过于频繁，请1分钟后再试", data := none }

/-- The `data` field of a `/v1/auth/verify-code` or `/v1/auth/verify-token`
answer. -/
structure VerifyData where
  passwordResetToken : Option String
  accessToken : Option String
deriving DecidableEq, Repr

/-- The `{code, message, data}` envelope answered by the two verify
endpoints. -/
structure VerifyResp where
  code : Int
  message : Option String
  data : Option VerifyData
deriving DecidableEq, Repr

/-- Message of the error thrown when a forgot-password verification answer
lacks `passwordResetToken`. -/
def missingResetTokenMsg : String := "重置令牌缺失，请重新验证"

/-- Fallback error message of `unifiedVerify`. -/
def verifyFallbackMsg : String := "验证失败，请重试"

/-- The flow label used in the detailed failure message of
`unifiedVerify`. -/
def verifyContextLabel : FlowType → String
  | .signup => "注册"
  | .forgotPassword => "找回密码"

/-- The method label used in the detailed failure message of
`unifiedVerify`. -/
def verifyMethodLabel (isManual : Bool) : String :=
  if isManual then "手动输入验证码" else "链接验证"

/-- JavaScript `message.toLowerCase()`, as a map over the character list
(ASCII letters are lowered; the CJK characters involved are fixpoints). -/
def strToLower (s : String) : String :=
  String.mk (s.data.map Char.toLower)

/-- The critical-error classification of the `catch` branch of
`unifiedVerify`: lowercase message contains "expired", "过期",
"token" together with "invalid" or "missing", or "重置令牌缺失". -/
def isCriticalError (message : String) : Bool :=
  let lowerMsg := strToLower message
  strIncludes lowerMsg "expired" || strIncludes lowerMsg "过期"
    || (strIncludes lowerMsg "token"
        && (strIncludes lowerMsg "invalid" || strIncludes lowerMsg "missing"))
    || strIncludes lowerMsg "重置令牌缺失"

/-- The `catch` branch of `unifiedVerify`: records the error message,
clears the verification state when the message is critical, and returns
`null`. -/
def unifiedVerifyCatch (message : String) (s : AuthStore) :
    Option VerifyResp × AuthStore :=
  let s1 := { s with error := some message }
  let s2 := if isCriticalError message then clearVerificationState s1 else s1
  (none, { s2 with loading := false })

/-- Action `unifiedVerify(payload)`.  `isManual` is `!!payload.code` (it
selects the endpoint and the method label only); `resp` is the answer of
that endpoint, a transport error being `.error`.  On `code === 200`, a
forgot-password flow demands a truthy `data.passwordResetToken` — its
absence throws `missingResetTokenMsg`, handled by the `catch` branch — and
stores it via `setPasswordResetToken`; a signup flow returns the result
untouched.  On `code !== 200` a detailed message is composed and thrown. -/
def unifiedVerify (ptype : FlowType) (isManual : Bool)
    (resp : Except String VerifyResp) (s : AuthStore) :
    Option VerifyResp × AuthStore :=
  let s1 := { s with loading := true, error := none }
  match resp with
  | .error msg =>
    unifiedVerifyCatch (if msg = "" then verifyFallbackMsg else msg) s1
  | .ok result =>
    if result.code = 200 then
      match ptype with
      | .forgotPassword =>
        match result.data.bind VerifyData.passwordResetToken with
        | some tok =>
          if tok = "" then unifiedVerifyCatch missingResetTokenMsg s1
          else
            let s2 := setPasswordResetToken tok s1
            (some result, { s2 with loading := false })
        | none => unifiedVerifyCatch missingResetTokenMsg s1
      | .signup => (some result, { s1 with loading := false })
    else
      let backendMessage := (match result.message with
        | some m => m.trim
        | none => "")
      let detailed :=
        if backendMessage = "" then
          s!"{verifyContextLabel ptype}失败（方式：{verifyMethodLabel isManual}），请重试"
        else
          s!"{verifyContextLabel ptype}失败（方式：{verifyMethodLabel isManual}）：{backendMessage}"
      unifiedVerifyCatch detailed s1

/-- The renewal endpoint excluded from the interceptor's 401 logic. -/
def refreshEndpoint : String := "/v1/auth/refresh"

/-- An outgoing request as the response interceptor sees it: its `url` and
its `_retry` marker (`retry` here).  `id` identifies the original logical
request across retries. -/
structure Req where
  id : Nat
  url : String
  retry : Bool
deriving DecidableEq, Repr

/-- The module-level coordination state of `src/services/api.ts`
(`isRefreshing`, `failedQueue`), together with observation fields recording
what the interceptor did: the request whose handler started the pending
refresh (already carrying `_retry = true`), how many refresh calls were
issued, every retry dispatched as `(original id, bearer token used)`, and
the ids of errors passed through to the caller. -/
structure InterceptorState where
  isRefreshing : Bool
  failedQueue : List Req
  pendingOriginal : Option Req
  refreshCount : Nat
  retries : List (Nat × String)
  rejectedIds : List Nat
deriving DecidableEq, Repr

/-- The state before any request failed. -/
def initialInterceptorState : InterceptorState :=
  { isRefreshing := false, failedQueue := [], pendingOriginal := none,
    refreshCount := 0, retries := [], rejectedIds := [] }

/-- The synchronous prefix of the response-interceptor error handler for a
401 answer, up to its first suspension point: requests to the refresh
endpoint or already marked `_retry` are passed through; while a refresh is
in flight the request joins `failedQueue`; otherwise the handler marks the
request, flips `isRefreshing`, and issues the single refresh call. -/
def handle401 (st : InterceptorState) (r : Req) : InterceptorState :=
  if r.url ≠ refreshEndpoint ∧ r.retry = false then
    if st.isRefreshing then
      { st with failedQueue := st.failedQueue ++ [r] }
    else
      { st with
        isRefreshing := true,
        refreshCount := st.refreshCount + 1,
        pendingOriginal := some { r with retry := true } }
  else
    { st with rejectedIds := st.rejectedIds ++ [r.id] }

/-- The continuation of the initiating handler once
`authStore.refreshAccessToken()` resolves: on success, the new token is
attached and the original request is retried, and `processQueue` resolves
every queued waiter with the same token (each then retries); on failure,
`processQueue` rejects every waiter and the initiator's error propagates.
The `finally` clause drops `isRefreshing` in both cases. -/
def completeRefresh (st : InterceptorState) (ok : Bool) (newToken : String) :
    InterceptorState :=
  if ok then
    { st with
      retries := st.retries
        ++ (match st.pendingOriginal with
            | some r => [(r.id, newToken)]
            | none => [])
        ++ st.failedQueue.map (fun r => (r.id, newToken)),
      failedQueue := [], pendingOriginal := none, isRefreshing := false }
  else
    { st with
      rejectedIds := st.rejectedIds
        ++ st.failedQueue.map Req.id
        ++ (match st.pendingOriginal with
            | some r => [r.id]
            | none => []),
      failedQueue := [], pendingOriginal := none, isRefreshing := false }

/-- An event of the single-threaded event loop: a request's 401 failure
handler runs, or the in-flight refresh resolves. -/
inductive InterceptorEvent where
  | fail401 (r : Req)
  | refreshDone (ok : Bool) (newToken : String)
deriving DecidableEq, Repr

/-- One event-loop step. -/
def interceptorStep (st : InterceptorState) (e : InterceptorEvent) :
    InterceptorState :=
  match e with
  | .fail401 r => handle401 st r
  | .refreshDone ok tok => completeRefresh st ok tok

/-- Run a whole event sequence from the initial state. -/
def runInterceptor (events : List InterceptorEvent) : InterceptorState :=
  events.foldl interceptorStep initialInterceptorState

/-- Data-model invariant: `type` is `null` exactly when every other field of
the verification state is absent. -/
def invariantA (v : VerificationState) : Prop :=
  v.type = none ↔
    (v.email = none ∧ v.verificationToken = none
      ∧ v.passwordResetToken = none ∧ v.timestamp = none)

instance (v : VerificationState) : Decidable (invariantA v) := by
  unfold invariantA
  infer_instance

/-- Data-model invariant: a present `passwordResetToken` forces the
forgot-password flow type. -/
def invariantB (v : VerificationState) : Prop :=
  v.passwordResetToken.isSome = true → v.type = some FlowType.forgotPassword

instance (v : VerificationState) : Decidable (invariantB v) := by
  unfold invariantB
  infer_instance

/-- A sample store holding an active signup verification flow, used to
instantiate theorems at concrete inputs. -/
def sampleActiveStore : AuthStore :=
  { accessToken := some "A", loading := false, error := none,
    verificationState :=
      ⟨some FlowType.signup, some "a@b.com", some "tok1", none, some 500⟩,
    resendCooldownEndTimestamp := none }

lemma isCriticalError_missingResetTokenMsg :
    isCriticalError missingResetTokenMsg = true := by decide

lemma invariantA_empty : invariantA createEmptyVerificationState := by decide

lemma invariantB_empty : invariantB createEmptyVerificationState := by decide

/-- C9: from any starting store, starting a signup verification for
`a@b.com` with token `tok1` and then running `cleanupAfterVerification`
with `keepPasswordResetToken = false` lands back in the empty idle
verification state: all five fields are `null`. -/
theorem start_cleanup_roundtrip (s : AuthStore) (T1 T2 : Int) :
    (cleanupAfterVerification false T2
        (setVerificationState ⟨FlowType.signup, "a@b.com", "tok1"⟩ T1 s)).verificationState
      = createEmptyVerificationState := rfl

/-- C4: a forgot-password `unifiedVerify` whose answer has `code === 200`
but no `passwordResetToken` in its `data` is treated as a failure: the
call returns `null`, the verification state is cleared to the empty idle
state (so no token is stored and no Verified transition happens), the
missing-token error is surfaced in `error`, and the resend cooldown is
also cancelled by the clear. -/
theorem unifiedVerify_missing_reset_token_fails (isManual : Bool)
    (result : VerifyResp) (s : AuthStore)
    (hcode : result.code = 200)
    (hmissing : result.data.bind VerifyData.passwordResetToken = none) :
    unifiedVerify FlowType.forgotPassword isManual (.ok result) s
      = (none,
        { s with
          loading := false,
          error := some missingResetTokenMsg,
          verificationState := createEmptyVerificationState,
          resendCooldownEndTimestamp := none }) := by
  unfold unifiedVerify unifiedVerifyCatch
  simp only [hcode, hmissing, if_pos, isCriticalError_missingResetTokenMsg,
    if_true, clearVerificationState]

/-- C4 witness: the theorem applied to a concrete 200 answer carrying an
access token but no reset token, from the sample store. -/
theorem unifiedVerify_missing_reset_token_fails_witness :
    unifiedVerify FlowType.forgotPassword true
        (.ok ⟨200, some "验证成功", some ⟨none, some "AT"⟩⟩) sampleActiveStore
      = (none,
        { sampleActiveStore with
          loading := false,
          error := some missingResetTokenMsg,
          verificationState := createEmptyVerificationState,
          resendCooldownEndTimestamp := none }) :=
  unifiedVerify_missing_reset_token_fails true
    ⟨200, some "验证成功", some ⟨none, some "AT"⟩⟩ sampleActiveStore rfl rfl

/-- C5: a verification state created at time `T` (any positive `Date.now()`
value) is reported active by `hasActiveVerification` at every access time
with `now - T ≤ 15` minutes, and is reported inactive and auto-cleared to
the empty state at every access with `now - T > 15` minutes; the check runs
on the access itself (`hasActiveVerification` is a function of the access
time `now`). -/
theorem hasActiveVerification_expiry (p : SetVerificationParams)
    (T now : Int) (s : AuthStore) (hT : 0 < T) :
    (now - T ≤ VERIFICATION_TIMEOUT →
      hasActiveVerification now (setVerificationState p T s)
        = (true, setVerificationState p T s))
    ∧ (now - T > VERIFICATION_TIMEOUT →
      hasActiveVerification now (setVerificationState p T s)
        = (false, clearVerificationState (setVerificationState p T s))
      ∧ (clearVerificationState (setVerificationState p T s)).verificationState
        = createEmptyVerificationState) := by
  have hT0 : ¬(T = 0) := by omega
  constructor
  · intro h
    have hexp : ¬(now - T > VERIFICATION_TIMEOUT) := by omega
    simp [hasActiveVerification, setVerificationState, hT0, hexp]
  · intro h
    refine ⟨?_, rfl⟩
    simp [hasActiveVerification, setVerificationState, hT0, h,
      clearVerificationState]

/-- C5 witness: the theorem applied at creation time 1000000, once at
14 min 59 s after creation (active) and once at 15 min 1 s after creation
(inactive and cleared). -/
theorem hasActiveVerification_expiry_witness :
    hasActiveVerification 1899000
        (setVerificationState ⟨FlowType.signup, "a@b.com", "tok1"⟩ 1000000 sampleActiveStore)
      = (true,
        setVerificationState ⟨FlowType.signup, "a@b.com", "tok1"⟩ 1000000 sampleActiveStore)
    ∧ hasActiveVerification 1901000
        (setVerificationState ⟨FlowType.signup, "a@b.com", "tok1"⟩ 1000000 sampleActiveStore)
      = (false,
        clearVerificationState
          (setVerificationState ⟨FlowType.signup, "a@b.com", "tok1"⟩ 1000000 sampleActiveStore)) :=
  ⟨(hasActiveVerification_expiry ⟨FlowType.signup, "a@b.com", "tok1"⟩
      1000000 1899000 sampleActiveStore (by decide)).1 (by decide),
   ((hasActiveVerification_expiry ⟨FlowType.signup, "a@b.com", "tok1"⟩
      1000000 1901000 sampleActiveStore (by decide)).2 (by decide)).1⟩

/-- C2: every failing `refreshAccessToken` — a transport error (the request
throws), a `code !== 200` answer, or an answer without a truthy
`accessToken` — forces logout as a side effect: it returns `false` and the
resulting store has a `null` in-memory access token and `isAuthenticated`
false.  Moreover `logout` itself is a total function of its own network
outcome (the `try/catch/finally` never lets the error reach the caller) and
unconditionally clears the in-memory token. -/
theorem refresh_failure_forces_logout (resp : Except String RefreshResp)
    (logoutNet : Except String Unit) (s : AuthStore)
    (hfail : refreshRespSucceeds resp = false) :
    (refreshAccessToken resp logoutNet s).1 = false
    ∧ (refreshAccessToken resp logoutNet s).2.accessToken = none
    ∧ isAuthenticated (refreshAccessToken resp logoutNet s).2 = false
    ∧ (∀ net clearCache s2, (logout net clearCache s2).accessToken = none
        ∧ isAuthenticated (logout net clearCache s2) = false) := by
  refine ⟨?_, ?_, ?_, fun net clearCache s2 => ⟨rfl, rfl⟩⟩ <;>
  · cases resp with
    | error e => rfl
    | ok result =>
      cases hd : result.data with
      | none => simp [refreshAccessToken, hd, logout, isAuthenticated, truthyStr]
      | some d =>
        cases ha : d.accessToken with
        | none =>
          simp [refreshAccessToken, hd, ha, logout, isAuthenticated, truthyStr]
        | some tok =>
          have hcond : ¬(result.code = 200 ∧ tok ≠ "") := by
            simp [refreshRespSucceeds, hd, ha, truthyStr] at hfail
            intro hc
            rcases hc with ⟨hc1, hc2⟩
            exact hc2 (hfail hc1)
          simp [refreshAccessToken, hd, ha, hcond, logout, isAuthenticated,
            truthyStr]

/-- C2 witness: the theorem applied to a concrete 401 refresh answer with
no data, a failing logout network call, and the sample store. -/
theorem refresh_failure_forces_logout_witness :
    (refreshAccessToken (.ok ⟨401, none⟩) (.error "network down") sampleActiveStore).1 = false
    ∧ (refreshAccessToken (.ok ⟨401, none⟩) (.error "network down") sampleActiveStore).2.accessToken = none
    ∧ isAuthenticated (refreshAccessToken (.ok ⟨401, none⟩) (.error "network down") sampleActiveStore).2 = false
    ∧ (∀ net clearCache s2, (logout net clearCache s2).accessToken = none
        ∧ isAuthenticated (logout net clearCache s2) = false) :=
  refresh_failure_forces_logout (.ok ⟨401, none⟩) (.error "network down")
    sampleActiveStore (by decide)

/-- C10: every path that clears the verification state through
`clearVerificationState` also cancels an active resend cooldown by nulling
`resendCooldownEndTimestamp`: the explicit clear itself, the lazy expiry
auto-clear inside `hasActiveVerification`, and the critical-error branch of
`unifiedVerify`; after each, `isResendCoolingDown` is false and
`resendCooldownSeconds` is 0 at every later access time. -/
theorem clear_paths_reset_cooldown (s : AuthStore) (now now2 : Int)
    (msg : String) (ptype : FlowType) (isManual : Bool) :
    ((clearVerificationState s).resendCooldownEndTimestamp = none
      ∧ isResendCoolingDown now2 (clearVerificationState s) = false
      ∧ resendCooldownSeconds now2 (clearVerificationState s) = 0)
    ∧ (∀ ft ts, s.verificationState.type = some ft →
        s.verificationState.timestamp = some ts → ts ≠ 0 →
        now - ts > VERIFICATION_TIMEOUT →
        (hasActiveVerification now s).1 = false
        ∧ (hasActiveVerification now s).2.resendCooldownEndTimestamp = none
        ∧ isResendCoolingDown now2 (hasActiveVerification now s).2 = false
        ∧ resendCooldownSeconds now2 (hasActiveVerification now s).2 = 0)
    ∧ (isCriticalError msg = true → msg ≠ "" →
        (unifiedVerify ptype isManual (.error msg) s).2.resendCooldownEndTimestamp = none
        ∧ isResendCoolingDown now2 (unifiedVerify ptype isManual (.error msg) s).2 = false
        ∧ resendCooldownSeconds now2 (unifiedVerify ptype isManual (.error msg) s).2 = 0) := by
  refine ⟨⟨rfl, rfl, rfl⟩, ?_, ?_⟩
  · intro ft ts hft hts h0 hexp
    have heq : hasActiveVerification now s = (false, clearVerificationState s) := by
      simp [hasActiveVerification, hft, hts, h0, hexp]
    rw [heq]
    exact ⟨rfl, rfl, rfl, rfl⟩
  · intro hcrit hmsg
    have heq : (unifiedVerify ptype isManual (.error msg) s).2
        = { clearVerificationState { s with loading := true, error := some msg } with
            loading := false } := by
      simp [unifiedVerify, unifiedVerifyCatch, hmsg, hcrit]
    rw [heq]
    exact ⟨rfl, rfl, rfl⟩

/-- C10 witness: the theorem applied to the sample store, an access past the
15-minute deadline, and the critical message "token expired". -/
theorem clear_paths_reset_cooldown_witness :
    ((clearVerificationState sampleActiveStore).resendCooldownEndTimestamp = none
      ∧ isResendCoolingDown 7 (clearVerificationState sampleActiveStore) = false
      ∧ resendCooldownSeconds 7 (clearVerificationState sampleActiveStore) = 0)
    ∧ ((hasActiveVerification 1000000 sampleActiveStore).1 = false
      ∧ (hasActiveVerification 1000000 sampleActiveStore).2.resendCooldownEndTimestamp = none
      ∧ isResendCoolingDown 7 (hasActiveVerification 1000000 sampleActiveStore).2 = false
      ∧ resendCooldownSeconds 7 (hasActiveVerification 1000000 sampleActiveStore).2 = 0)
    ∧ ((unifiedVerify FlowType.signup false (.error "token expired") sampleActiveStore).2.resendCooldownEndTimestamp = none
      ∧ isResendCoolingDown 7 (unifiedVerify FlowType.signup false (.error "token expired") sampleActiveStore).2 = false
      ∧ resendCooldownSeconds 7 (unifiedVerify FlowType.signup false (.error "token expired") sampleActiveStore).2 = 0) :=
  ⟨(clear_paths_reset_cooldown sampleActiveStore 1000000 7 "token expired"
      FlowType.signup false).1,
   (clear_paths_reset_cooldown sampleActiveStore 1000000 7 "token expired"
      FlowType.signup false).2.1 FlowType.signup 500 rfl rfl (by decide) (by decide),
   (clear_paths_reset_cooldown sampleActiveStore 1000000 7 "token expired"
      FlowType.signup false).2.2 (by decide) (by decide)⟩

lemma hasActiveVerification_snd (now : Int) (s : AuthStore) :
    (hasActiveVerification now s).2 = s
    ∨ (hasActiveVerification now s).2 = clearVerificationState s := by
  unfold hasActiveVerification
  split
  · split
    · exact Or.inl rfl
    · split
      · exact Or.inr rfl
      · exact Or.inl rfl
  · exact Or.inl rfl

lemma hasActiveVerification_of_true (now : Int) (s : AuthStore)
    (h : (hasActiveVerification now s).1 = true) :
    hasActiveVerification now s = (true, s) := by
  unfold hasActiveVerification at h ⊢
  split at h
  · split at h
    · simp at h
    · split at h
      · simp at h
      · simp_all
  · simp at h

lemma resend_vstate (now : Int) (resp : Except String ResendResp)
    (s : AuthStore) :
    (resendVerificationCode now resp s).store.verificationState
        = s.verificationState
    ∨ (resendVerificationCode now resp s).store.verificationState
        = createEmptyVerificationState
    ∨ ∃ ft em tk, (resendVerificationCode now resp s).store.verificationState
        = ⟨some ft, some em, some tk, none, some now⟩ := by
  unfold resendVerificationCode
  rcases hasActiveVerification_snd now s with h | h <;> simp only [h]
  all_goals repeat (first
    | (exact Or.inl rfl)
    | (exact Or.inr (Or.inl rfl))
    | (exact Or.inr (Or.inr ⟨_, _, _, rfl⟩))
    | split)

lemma unifiedVerify_vstate (ptype : FlowType) (isManual : Bool)
    (resp : Except String VerifyResp) (s : AuthStore) :
    (unifiedVerify ptype isManual resp s).2.verificationState
        = s.verificationState
    ∨ (unifiedVerify ptype isManual resp s).2.verificationState
        = createEmptyVerificationState
    ∨ (ptype = FlowType.forgotPassword ∧ ∃ tok,
        (unifiedVerify ptype isManual resp s).2.verificationState
          = { s.verificationState with passwordResetToken := some tok }) := by
  unfold unifiedVerify unifiedVerifyCatch
  repeat (first
    | (exact Or.inl rfl)
    | (exact Or.inr (Or.inl rfl))
    | (exact Or.inr (Or.inr ⟨rfl, _, rfl⟩))
    | split
    | dsimp only)

lemma resend_outcome_cases (now : Int) (resp : Except String ResendResp)
    (s : AuthStore) :
    (resendVerificationCode now resp s).success = false
    ∨ (∃ ft em tk,
        (resendVerificationCode now resp s).store.verificationState
          = ⟨some ft, some em, some tk, none, some now⟩
        ∧ (resendVerificationCode now resp s).store.resendCooldownEndTimestamp
          = some (now + 60 * 1000)) := by
  unfold resendVerificationCode
  rcases hasActiveVerification_snd now s with h | h <;> simp only [h]
  all_goals repeat (first
    | (exact Or.inl rfl)
    | (exact Or.inr ⟨_, _, _, rfl, rfl⟩)
    | split)

/-- A sample store holding a verified forgot-password flow type, used to
instantiate theorems at concrete inputs. -/
def sampleForgotStore : AuthStore :=
  { accessToken := some "A", loading := false, error := none,
    verificationState :=
      ⟨some FlowType.forgotPassword, some "a@b.com", some "tok1", none, some 500⟩,
    resendCooldownEndTimestamp := none }

/-- C6 counterexample: `setPasswordResetToken` does not preserve the two
data-model invariants, because the code sets the field without checking the
flow type.  Applied to a store in the empty idle state — which satisfies
both invariants — it yields a verification state with `type = null` but a
present `passwordResetToken`, violating both the "type null iff all fields
absent" invariant and the "reset token implies forgot-password" invariant;
applied to a signup-flow state satisfying both, it keeps `type = signup`
while storing the reset token, violating the reset-token-implies-
forgot-password invariant (the type-null-iff-empty invariant survives
there). -/
theorem setPasswordResetToken_breaks_invariants :
    invariantA (clearVerificationState sampleActiveStore).verificationState
    ∧ invariantB (clearVerificationState sampleActiveStore).verificationState
    ∧ ¬ invariantA (setPasswordResetToken "x"
        (clearVerificationState sampleActiveStore)).verificationState
    ∧ ¬ invariantB (setPasswordResetToken "x"
        (clearVerificationState sampleActiveStore)).verificationState
    ∧ invariantA sampleActiveStore.verificationState
    ∧ invariantB sampleActiveStore.verificationState
    ∧ invariantA (setPasswordResetToken "x" sampleActiveStore).verificationState
    ∧ ¬ invariantB (setPasswordResetToken "x" sampleActiveStore).verificationState := by
  decide

/-- C6 amended: the verification-flow operations preserve the two state
invariants (`type = null` iff all other fields absent; `passwordResetToken`
present implies forgot-password), with one qualification forced by the
counterexample: `setPasswordResetToken` preserves them only when the
current flow type is already forgot-password (from the empty idle state it
violates both invariants, from a signup-flow state the reset-token one),
and `unifiedVerify` — whose forgot-password success path calls it without
checking the stored type — accordingly needs the stored flow type to be
forgot-password whenever its payload type is (a signup payload always
preserves both invariants). -/
theorem verification_ops_preserve_invariants
    (p : SetVerificationParams) (tok : String) (keep : Bool) (nowT : Int)
    (resp : Except String ResendResp) (ptype : FlowType) (isManual : Bool)
    (vresp : Except String VerifyResp) (s : AuthStore)
    (hA : invariantA s.verificationState)
    (hB : invariantB s.verificationState) :
    (invariantA (setVerificationState p nowT s).verificationState
      ∧ invariantB (setVerificationState p nowT s).verificationState)
    ∧ (s.verificationState.type = some FlowType.forgotPassword →
        invariantA (setPasswordResetToken tok s).verificationState
        ∧ invariantB (setPasswordResetToken tok s).verificationState)
    ∧ (invariantA (clearVerificationState s).verificationState
      ∧ invariantB (clearVerificationState s).verificationState)
    ∧ (invariantA (cleanupAfterVerification keep nowT s).verificationState
      ∧ invariantB (cleanupAfterVerification keep nowT s).verificationState)
    ∧ (invariantA (resendVerificationCode nowT resp s).store.verificationState
      ∧ invariantB (resendVerificationCode nowT resp s).store.verificationState)
    ∧ ((ptype = FlowType.forgotPassword →
          s.verificationState.type = some FlowType.forgotPassword) →
        invariantA (unifiedVerify ptype isManual vresp s).2.verificationState
        ∧ invariantB (unifiedVerify ptype isManual vresp s).2.verificationState) := by
  refine ⟨?_, ?_, ⟨invariantA_empty, invariantB_empty⟩, ?_, ?_, ?_⟩
  · constructor <;> simp [setVerificationState, invariantA, invariantB]
  · intro hft
    constructor <;>
      simp [setPasswordResetToken, invariantA, invariantB, hft]
  · unfold cleanupAfterVerification
    split
    · rename_i hcond
      rw [Bool.and_eq_true] at hcond
      unfold truthyStr at hcond
      constructor
      · unfold invariantA
        cases hprt : s.verificationState.passwordResetToken <;>
          simp_all
      · unfold invariantB
        simp
    · exact ⟨invariantA_empty, invariantB_empty⟩
  · rcases resend_vstate nowT resp s with h | h | ⟨ft, em, tk, h⟩ <;> rw [h]
    · exact ⟨hA, hB⟩
    · exact ⟨invariantA_empty, invariantB_empty⟩
    · constructor <;> simp [invariantA, invariantB]
  · intro hptype
    rcases unifiedVerify_vstate ptype isManual vresp s with h | h | ⟨hfp, t, h⟩ <;>
      rw [h]
    · exact ⟨hA, hB⟩
    · exact ⟨invariantA_empty, invariantB_empty⟩
    · have hft : s.verificationState.type = some FlowType.forgotPassword :=
        hptype hfp
      constructor
      · unfold invariantA
        simp [hft]
      · unfold invariantB
        simp [hft]

/-- C6 witness: the amended theorem applied to the sample forgot-password
store, extracting the `setPasswordResetToken` conjunct with its flow-type
hypothesis discharged. -/
theorem verification_ops_preserve_invariants_witness :
    invariantA (setPasswordResetToken "PRT" sampleForgotStore).verificationState
    ∧ invariantB (setPasswordResetToken "PRT" sampleForgotStore).verificationState :=
  (verification_ops_preserve_invariants ⟨FlowType.signup, "a@b.com", "tok1"⟩
      "PRT" false 1000 (.error "boom") FlowType.signup true (.error "boom")
      sampleForgotStore (by decide) (by decide)).2.1 rfl

/-- C7: after a `resendVerificationCode` call at a positive time `T` that
succeeded, every second call made at a time `now` with
`T ≤ now < T + 60` seconds fails locally: it returns false with the
cooldown error message in `error` and issues no network request, whatever
answer the server would have produced. -/
theorem resend_second_call_blocked (T now : Int)
    (resp1 resp2 : Except String ResendResp) (s : AuthStore)
    (hT : 0 < T)
    (h1 : (resendVerificationCode T resp1 s).success = true)
    (hle : T ≤ now) (hlt : now < T + 60 * 1000) :
    resendVerificationCode now resp2 (resendVerificationCode T resp1 s).store
      = { success := false,
          store := { (resendVerificationCode T resp1 s).store with
            error := some resendCooldownMsg },
          requestSent := false } := by
  rcases resend_outcome_cases T resp1 s with hbad | ⟨ft, em, tk, hvs, hcd⟩
  · rw [h1] at hbad
    exact absurd hbad (by simp)
  · set s1 := (resendVerificationCode T resp1 s).store with hs1
    have hact : hasActiveVerification now s1 = (true, s1) := by
      unfold hasActiveVerification
      rw [hvs]
      have h0 : ¬(T = 0) := by omega
      have hexp : ¬(now - T > VERIFICATION_TIMEOUT) := by
        unfold VERIFICATION_TIMEOUT
        omega
      simp [h0, hexp]
    have hcool : isResendCoolingDown now s1 = true := by
      unfold isResendCoolingDown
      rw [hcd]
      simp only [bne_iff_ne, ne_eq, decide_eq_true_eq, Bool.and_eq_true]
      omega
    unfold resendVerificationCode
    simp [hact, hcool]

/-- C7 witness: the theorem applied to the sample store — a successful
resend at T = 1000 answered with a fresh token, then a second call one
millisecond before the cooldown ends. -/
theorem resend_second_call_blocked_witness :
    resendVerificationCode 60999 (.error "offline")
        (resendVerificationCode 1000 (.ok ⟨200, "新的验证码已发送", some ⟨"tok2"⟩⟩)
          sampleActiveStore).store
      = { success := false,
          store := { (resendVerificationCode 1000
              (.ok ⟨200, "新的验证码已发送", some ⟨"tok2"⟩⟩) sampleActiveStore).store with
            error := some resendCooldownMsg },
          requestSent := false } :=
  resend_second_call_blocked 1000 60999
    (.ok ⟨200, "新的验证码已发送", some ⟨"tok2"⟩⟩) (.error "offline")
    sampleActiveStore (by decide) (by decide) (by decide) (by decide)

/-- C8: evaluation of `resendVerificationCode` at the failing input — an
active flow and the mock server's actual rate-limit answer (HTTP status
429, body code 429, message containing "频繁").  Because the axios
instance rejects the non-2xx status, the answer arrives as a rejection and
lands in the `catch`: the call returns false with the server's message as
the error and leaves the flow state untouched, but
`resendCooldownEndTimestamp` stays `null` and no cooldown runs — the
`result.code === 429 && result.message.includes('频繁')` branch that would
start it (annotated in the source with "与后端同步，也开启冷却", i.e.
start the cooldown to stay in sync with the backend, exactly what the
claim demands) is unreachable for the server's rate-limit answers. -/
theorem resend_rate_limit_no_cooldown_bug :
    resendVerificationCode 1000 (axiosDeliver 429 mockResendRateLimited)
        sampleActiveStore
      = { success := false,
          store := { sampleActiveStore with
            loading := false,
            error := some "请求过于频繁，请1分钟后再试" },
          requestSent := true }
    ∧ (resendVerificationCode 1000 (axiosDeliver 429 mockResendRateLimited)
        sampleActiveStore).store.resendCooldownEndTimestamp = none
    ∧ (resendVerificationCode 1000 (axiosDeliver 429 mockResendRateLimited)
        sampleActiveStore).store.verificationState
      = sampleActiveStore.verificationState
    ∧ isResendCoolingDown 1000 (resendVerificationCode 1000
        (axiosDeliver 429 mockResendRateLimited) sampleActiveStore).store
      = false := by
  decide

lemma foldl_handle401_refreshing (rs : List Req) (st : InterceptorState)
    (href : st.isRefreshing = true)
    (hok : ∀ r ∈ rs, r.url ≠ refreshEndpoint ∧ r.retry = false) :
    rs.foldl handle401 st = { st with failedQueue := st.failedQueue ++ rs } := by
  induction rs generalizing st with
  | nil => simp
  | cons r rest ih =>
    have hr := hok r (List.mem_cons_self r rest)
    have hstep : handle401 st r
        = { st with failedQueue := st.failedQueue ++ [r] } := by
      simp [handle401, hr.1, hr.2, href]
    rw [List.foldl_cons, hstep,
      ih { st with failedQueue := st.failedQueue ++ [r] } href
        (fun x hx => hok x (List.mem_cons_of_mem r hx))]
    simp

/-- C1: for every nonempty batch of concurrent requests that each receive a
401 while no renewal is in progress (none of them being the refresh
endpoint or already-retried), processing their failure handlers and then
the completion of the refresh sends exactly one renewal request
(`refreshCount = 1`: the first failure flips `isRefreshing` and starts it,
the others join `failedQueue`), and every one of the requests is retried
carrying the same renewed access token. -/
theorem interceptor_single_flight (rs : List Req) (tok : String)
    (hne : rs ≠ [])
    (hok : ∀ r ∈ rs, r.url ≠ refreshEndpoint ∧ r.retry = false) :
    (runInterceptor (rs.map InterceptorEvent.fail401
        ++ [InterceptorEvent.refreshDone true tok])).refreshCount = 1
    ∧ ∀ r ∈ rs, (r.id, tok) ∈ (runInterceptor (rs.map InterceptorEvent.fail401
        ++ [InterceptorEvent.refreshDone true tok])).retries := by
  rcases rs with _ | ⟨r0, rest⟩
  · exact absurd rfl hne
  · have hr0 := hok r0 (List.mem_cons_self r0 rest)
    have hrest : ∀ r ∈ rest, r.url ≠ refreshEndpoint ∧ r.retry = false :=
      fun x hx => hok x (List.mem_cons_of_mem r0 hx)
    have hst1 : handle401 initialInterceptorState r0
        = { initialInterceptorState with
            isRefreshing := true, refreshCount := 1,
            pendingOriginal := some { r0 with retry := true } } := by
      simp [handle401, hr0.1, hr0.2, initialInterceptorState]
    have hfold : runInterceptor ((r0 :: rest).map InterceptorEvent.fail401
          ++ [InterceptorEvent.refreshDone true tok])
        = completeRefresh
            (List.foldl handle401 (handle401 initialInterceptorState r0) rest)
            true tok := by
      unfold runInterceptor
      rw [List.foldl_append]
      simp [List.foldl_map, interceptorStep]
    have hq : List.foldl handle401 (handle401 initialInterceptorState r0) rest
        = { initialInterceptorState with
            isRefreshing := true, refreshCount := 1,
            pendingOriginal := some { r0 with retry := true },
            failedQueue := rest } := by
      rw [hst1, foldl_handle401_refreshing rest _ rfl hrest]
      simp [initialInterceptorState]
    have hfinal : completeRefresh
        { initialInterceptorState with
          isRefreshing := true, refreshCount := 1,
          pendingOriginal := some { r0 with retry := true },
          failedQueue := rest } true tok
        = { initialInterceptorState with
            refreshCount := 1,
            retries := (r0.id, tok) :: rest.map (fun r => (r.id, tok)) } := rfl
    rw [hfold, hq, hfinal]
    constructor
    · rfl
    · intro r hr
      rcases List.mem_cons.mp hr with h | h
      · subst h
        exact List.mem_cons_self _ _
      · exact List.mem_cons_of_mem _ (List.mem_map_of_mem _ h)

/-- C1 witness: the theorem applied to three concrete concurrent requests
and the renewed token "fresh". -/
theorem interceptor_single_flight_witness :
    (runInterceptor ([⟨0, "/w0", false⟩, ⟨1, "/w1", false⟩,
        (⟨2, "/w2", false⟩ : Req)].map InterceptorEvent.fail401
        ++ [InterceptorEvent.refreshDone true "fresh"])).refreshCount = 1
    ∧ ∀ r ∈ [⟨0, "/w0", false⟩, ⟨1, "/w1", false⟩, (⟨2, "/w2", false⟩ : Req)],
        (r.id, "fresh") ∈ (runInterceptor ([⟨0, "/w0", false⟩,
            ⟨1, "/w1", false⟩, (⟨2, "/w2", false⟩ : Req)].map
            InterceptorEvent.fail401
            ++ [InterceptorEvent.refreshDone true "fresh"])).retries :=
  interceptor_single_flight
    [⟨0, "/w0", false⟩, ⟨1, "/w1", false⟩, ⟨2, "/w2", false⟩] "fresh"
    (by decide) (by decide)

/-- C3 counterexample: the "retried at most once" conclusion fails for
requests that were enqueued during a refresh, because only the request that
starts the refresh receives the `_retry` marker.  Concretely: request 1 is
enqueued behind the refresh started by request 0 and retried with token
"t1"; its retry is answered 401 again, and — still unmarked, with
`isRefreshing` back to false — it starts a second refresh and is retried a
second time with token "t2", for two retries of the same original request
(and two renewal requests). -/
theorem interceptor_queued_request_retried_twice :
    ((runInterceptor [InterceptorEvent.fail401 ⟨0, "/d0", false⟩,
        InterceptorEvent.fail401 ⟨1, "/d1", false⟩,
        InterceptorEvent.refreshDone true "t1",
        InterceptorEvent.fail401 ⟨1, "/d1", false⟩,
        InterceptorEvent.refreshDone true "t2"]).retries.countP
      (fun pr => pr.1 == 1)) = 2
    ∧ (runInterceptor [InterceptorEvent.fail401 ⟨0, "/d0", false⟩,
        InterceptorEvent.fail401 ⟨1, "/d1", false⟩,
        InterceptorEvent.refreshDone true "t1",
        InterceptorEvent.fail401 ⟨1, "/d1", false⟩,
        InterceptorEvent.refreshDone true "t2"]).refreshCount = 2 := by
  decide

/-- C3 amended: a 401 on a request to the renewal endpoint
`/v1/auth/refresh` never triggers the renewal/retry logic (it is passed
through, starting no refresh and joining no queue), and a request already
carrying the `_retry` marker is likewise never retried again; the request
that starts a refresh is marked, so it is retried at most once — but
requests that were enqueued during a refresh are retried unmarked and can
be retried again if the server answers 401 once more (see the
counterexample). -/
theorem interceptor_guard_behaviour (st : InterceptorState) (r : Req) :
    (r.url = refreshEndpoint →
      handle401 st r = { st with rejectedIds := st.rejectedIds ++ [r.id] })
    ∧ (r.retry = true →
      handle401 st r = { st with rejectedIds := st.rejectedIds ++ [r.id] })
    ∧ (st.isRefreshing = false → r.url ≠ refreshEndpoint → r.retry = false →
      (handle401 st r).pendingOriginal = some { r with retry := true }) := by
  refine ⟨?_, ?_, ?_⟩
  · intro h
    simp [handle401, h]
  · intro h
    simp [handle401, h]
  · intro h1 h2 h3
    simp [handle401, h1, h2, h3]

/-- C3 witness: the amended theorem applied to a refresh-endpoint request,
an already-marked request, and a fresh request from the initial state. -/
theorem interceptor_guard_behaviour_witness :
    handle401 initialInterceptorState ⟨5, "/v1/auth/refresh", false⟩
      = { initialInterceptorState with rejectedIds := [5] }
    ∧ handle401 initialInterceptorState ⟨6, "/data", true⟩
      = { initialInterceptorState with rejectedIds := [6] }
    ∧ (handle401 initialInterceptorState ⟨7, "/data", false⟩).pendingOriginal
      = some ⟨7, "/data", true⟩ :=
  ⟨(interceptor_guard_behaviour initialInterceptorState
      ⟨5, "/v1/auth/refresh", false⟩).1 rfl,
   (interceptor_guard_behaviour initialInterceptorState
      ⟨6, "/data", true⟩).2.1 rfl,
   (interceptor_guard_behaviour initialInterceptorState
      ⟨7, "/data", false⟩).2.2 rfl (by decide) rfl⟩
